import Mathlib

/-!
Shallow embedding of the chat session store implemented in `src/src/App.tsx`.

The source is a React function component holding its whole state in `useState`
hooks: `chats`, `currentChatId`, `messages`, `input`, `isLoading`, `model`,
`error`.  We embed that state as the structure `AppState` and each event
handler as a state transformer.

React semantics captured by the embedding:
- A handler body reads the *render-time* values of the state variables (the
  closure capture); calls to a setter queue an update that only becomes
  visible on the next render.  A functional update `setX (fun prev => ...)`
  is applied to the latest queued value.
- Therefore each helper invoked from inside a handler is modelled as a
  function of two states: `capt`, the captured render state its reads see,
  and `acc`, the accumulated queued state its writes apply to.  A handler
  fired directly by an event has `capt = acc`.
- JavaScript truthiness tests on `string | null` values (`!input.trim()`,
  `!currentChatId`, `!data.response`) are falsy exactly on `null`/absent and
  on the empty string; `strFalsy` embeds this.

Text is modelled as Lean `String` (a sequence of characters standing for the
JavaScript sequence of code units); `Date.now()` readings are `Nat`
parameters; the single fetch to the inference server is replaced by a
`FetchOutcome` parameter describing how the network call resolved.
-/

namespace OllamaApp

/-- Message role, from the `Message` interface (`App.tsx` lines 5-8). -/
inductive Role where
  | user
  | assistant
deriving Repr, DecidableEq, BEq

/-- A chat message (`App.tsx` lines 5-8). -/
structure Message where
  role : Role
  content : String
deriving Repr, DecidableEq, BEq

/-- A chat record (`App.tsx` lines 10-16). -/
structure Chat where
  id : String
  title : String
  messages : List Message
  model : String
  createdAt : Nat
deriving Repr, DecidableEq, BEq

/-- The component state: one field per `useState` hook (`App.tsx` lines 19-25). -/
structure AppState where
  chats : List Chat
  currentChatId : Option String
  messages : List Message
  input : String
  isLoading : Bool
  model : String
  error : Option String
deriving Repr, DecidableEq

/-- JavaScript falsiness of a `string | null` value: `null` and `""` are falsy. -/
def strFalsy : Option String → Bool
  | none => true
  | some v => v == ""

/-- JavaScript `String.prototype.trim`: strip leading and trailing whitespace.
Embedded directly on the character sequence so that it evaluates by
reduction. -/
def jsTrim (s : String) : String :=
  String.mk (((s.data.dropWhile Char.isWhitespace).reverse.dropWhile
      Char.isWhitespace).reverse)

/-- Title derivation from a message log (`App.tsx` lines 67-71): the first
message with role `user` gives the title; `slice(0, 30)` — the first 30
characters, embedded on the character sequence — plus an ellipsis marker when
the content is longer than 30; otherwise "New Chat". -/
def computeTitle (msgs : List Message) : String :=
  match msgs.find? (fun m => m.role == Role.user) with
  | none => "New Chat"
  | some m =>
    String.mk (m.content.data.take 30) ++
      (if m.content.length > 30 then "..." else "")

/-- `createNewChat` (`App.tsx` lines 49-60).  The id is `Date.now().toString()`
and `createdAt` is `Date.now()`; both clock reads are modelled by the single
value `now`.  Reads the selected model from the captured state `capt`;
the functional `setChats` update applies to the accumulated state `acc`. -/
def createNewChat (now : Nat) (capt acc : AppState) : AppState :=
  let newChat : Chat :=
    { id := toString now, title := "New Chat", messages := [], model := capt.model,
      createdAt := now }
  { acc with chats := newChat :: acc.chats, currentChatId := some newChat.id,
             messages := [] }

/-- `updateCurrentChat` (`App.tsx` lines 62-82): guard `if (!currentChatId) return`,
then map over the collection replacing the active chat record with one whose
`messages`, recomputed `title` and `model` (read from the captured state) are
updated.  All other fields, including `id` and `createdAt`, are spread through. -/
def updateCurrentChat (msgs : List Message) (capt acc : AppState) : AppState :=
  match capt.currentChatId with
  | none => acc
  | some cid =>
    if cid == "" then acc
    else
      { acc with chats := acc.chats.map (fun chat =>
          if chat.id == cid then
            { chat with messages := msgs, title := computeTitle msgs, model := capt.model }
          else chat) }

/-- `selectChat` (`App.tsx` lines 140-147): look the id up in the captured
collection; when found, set it active and load its messages and model. -/
def selectChat (chatId : String) (capt acc : AppState) : AppState :=
  match capt.chats.find? (fun c => c.id == chatId) with
  | none => acc
  | some chat =>
    { acc with currentChatId := some chatId, messages := chat.messages,
               model := chat.model }

/-- `selectChat` together with its returned value: the arrow function body has
no `return` statement, so every call evaluates to `undefined` (modelled `none`). -/
def selectChatFull (chatId : String) (s : AppState) : AppState × Option Chat :=
  (selectChat chatId s s, none)

/-- `deleteChat` (`App.tsx` lines 149-161): filter the chat out of the
collection; when the deleted id was the active one, select the head of the
remaining chats (a call of `selectChat`, whose reads see the captured,
pre-delete collection) or, when none remain, clear the cursor and log. -/
def deleteChat (chatId : String) (s : AppState) : AppState :=
  let acc1 := { s with chats := s.chats.filter (fun chat => chat.id != chatId) }
  if s.currentChatId == some chatId then
    match s.chats.filter (fun chat => chat.id != chatId) with
    | [] => { acc1 with currentChatId := none, messages := [] }
    | r :: _ => selectChat r.id s acc1
  else acc1

/-- The model `<select>` onChange handler (`App.tsx` line 184). -/
def setModel (m : String) (s : AppState) : AppState := { s with model := m }

/-- How the single fetch to `/api/generate` resolved (`App.tsx` lines 101-122):
a rejected promise (network error carrying a message), a non-ok HTTP status
with its body text, or an ok response whose parsed JSON may or may not carry
a `response` field. -/
inductive FetchOutcome where
  | networkError (msg : String)
  | httpError (status : Nat) (body : String)
  | success (response : Option String)
deriving Repr, DecidableEq

/-- The synchronous prefix of `handleSubmit` before the fetch is issued
(`App.tsx` lines 84-99): the empty-after-trim guard, chat creation when no
chat is active (`!currentChatId`), appending the user message to the captured
log, `updateCurrentChat` (reading the captured, possibly stale
`currentChatId`), then clearing the input, raising the busy flag and clearing
the error slot. -/
def handleSubmitPre (now : Nat) (s : AppState) : AppState :=
  if jsTrim s.input == "" then s
  else
    let acc0 := if strFalsy s.currentChatId then createNewChat now s s else s
    let newMessages := s.messages ++ [{ role := Role.user, content := s.input }]
    let acc1 := { acc0 with messages := newMessages }
    let acc2 := updateCurrentChat newMessages s acc1
    { acc2 with input := "", isLoading := true, error := none }

/-- The whole of `handleSubmit` (`App.tsx` lines 84-138), the fetch outcome
passed as a parameter.  A non-ok status throws `API Error: <status> <body>`;
a missing (or falsy, i.e. empty) `response` field throws
`No response data received from Ollama`; any throw is caught and stored in
the error slot.  On success the assistant message is appended via
`setMessages` and `updateCurrentChat` (again reading the captured state);
`finally` lowers the busy flag. -/
def handleSubmit (now : Nat) (o : FetchOutcome) (s : AppState) : AppState :=
  if jsTrim s.input == "" then s
  else
    let acc := handleSubmitPre now s
    let newMessages := s.messages ++ [{ role := Role.user, content := s.input }]
    let failWith := fun (m : String) => { acc with error := some m, isLoading := false }
    match o with
    | .networkError m => failWith m
    | .httpError status body => failWith ("API Error: " ++ toString status ++ " " ++ body)
    | .success response =>
      if strFalsy response then failWith "No response data received from Ollama"
      else
        match response with
        | none => failWith "No response data received from Ollama"
        | some resp =>
          let updatedMessages := newMessages ++ [{ role := Role.assistant, content := resp }]
          let acc2 := { acc with messages := updatedMessages }
          let acc3 := updateCurrentChat updatedMessages s acc2
          { acc3 with isLoading := false }

/-- One store operation, for reasoning about operation sequences. -/
inductive Op where
  | create (now : Nat)
  | append (msgs : List Message)
  | select (chatId : String)
  | del (chatId : String)
deriving Repr

/-- Run one operation as its handler fires: captured and accumulated state coincide. -/
def applyOp (s : AppState) : Op → AppState
  | .create now => createNewChat now s s
  | .append msgs => updateCurrentChat msgs s s
  | .select chatId => selectChat chatId s s
  | .del chatId => deleteChat chatId s

/-- Run a sequence of operations. -/
def runOps (s : AppState) (ops : List Op) : AppState := ops.foldl applyOp s

/-- The no-dangling-cursor invariant: when a chat id is active, some chat in
the collection carries that id. -/
def noDangling (s : AppState) : Bool :=
  match s.currentChatId with
  | none => true
  | some cid => s.chats.any (fun c => c.id == cid)

/-- The failure cases of the submission flow (`App.tsx` lines 114-122, 131):
a rejected fetch, a non-ok status, or an ok response whose `response` field is
absent or empty (the `!data.response` falsy test). -/
def inferenceFails : FetchOutcome → Bool
  | FetchOutcome.networkError _ => true
  | FetchOutcome.httpError _ _ => true
  | FetchOutcome.success none => true
  | FetchOutcome.success (some r) => r == ""

/-- The error string each failure path of `handleSubmit` stores in the error
slot, in terms of the thrown message texts of `App.tsx` lines 116 and 121. -/
def inferenceErrorMessage : FetchOutcome → Option String
  | FetchOutcome.networkError m => some m
  | FetchOutcome.httpError status body =>
    some ("API Error: " ++ toString status ++ " " ++ body)
  | FetchOutcome.success none => some "No response data received from Ollama"
  | FetchOutcome.success (some r) =>
    if r == "" then some "No response data received from Ollama" else none

/-- A 40-character content, longer than the 30-character title limit. -/
def longContent : String := "aaaaaaaaaaaaaaaaaaaaaaaaaaaaaaaaaaaaaaaa"

/-- A short user message. -/
def helloMsg : Message := { role := Role.user, content := "Hello" }

/-- A user message whose content exceeds 30 characters. -/
def longMsg : Message := { role := Role.user, content := longContent }

/-- The assistant reply used in the concrete success scenario. -/
def hiThereMsg : Message := { role := Role.assistant, content := "Hi there" }

/-- The state of a freshly mounted component with empty storage. -/
def initialState : AppState :=
  { chats := [], currentChatId := none, messages := [], input := "",
    isLoading := false, model := "llama3.2:latest", error := none }

/-- A chat fixture with id "1". -/
def chatA : Chat :=
  { id := "1", title := "greeting", messages := [helloMsg],
    model := "llama3.2:latest", createdAt := 1 }

/-- A chat fixture with id "2" and a different model. -/
def chatB : Chat :=
  { id := "2", title := "second", messages := [{ role := Role.user, content := "there" }],
    model := "mistral", createdAt := 2 }

/-- A state holding the two chat fixtures with chat "1" active. -/
def twoChatState : AppState :=
  { chats := [chatA, chatB], currentChatId := some "1", messages := chatA.messages,
    input := "", isLoading := false, model := "llama3.2:latest", error := none }

/-- The initial state with "Hello" typed into the input box and no active chat. -/
def freshSubmitState : AppState :=
  { initialState with input := "Hello" }

/-- The chat record `createNewChat` builds at clock reading 1 from the default model. -/
def emptyChat1 : Chat :=
  { id := "1", title := "New Chat", messages := [], model := "llama3.2:latest",
    createdAt := 1 }

/-- The chat record expected after the concrete success scenario. -/
def helloChat : Chat :=
  { id := "1", title := "Hello", messages := [helloMsg, hiThereMsg],
    model := "llama3.2:latest", createdAt := 1 }

/-- A chat created at millisecond 5, so with id "5". -/
def chatStamp5 : Chat :=
  { id := "5", title := "New Chat", messages := [], model := "llama3.2:latest",
    createdAt := 5 }

/-- A state already holding the chat created at millisecond 5. -/
def collisionState : AppState :=
  { chats := [chatStamp5], currentChatId := some "5", messages := [], input := "",
    isLoading := false, model := "llama3.2:latest", error := none }

/-- The two-chat state with "Hi" typed into the input box. -/
def failState : AppState :=
  { twoChatState with input := "Hi" }

/-- Chat fixture "1" after an append under the model "mistral". -/
def chatARebound : Chat :=
  { chatA with
    messages := [helloMsg], title := computeTitle [helloMsg], model := "mistral" }

/-- The per-chat update function of `updateCurrentChat` never changes the id. -/
theorem chatUpdate_id (msgs : List Message) (mdl cid : String) (c : Chat) :
    (if c.id == cid then
      { c with messages := msgs, title := computeTitle msgs, model := mdl }
    else c).id = c.id := by
  split <;> rfl

/-- The per-chat update function of `updateCurrentChat` never changes `createdAt`. -/
theorem chatUpdate_createdAt (msgs : List Message) (mdl cid : String) (c : Chat) :
    (if c.id == cid then
      { c with messages := msgs, title := computeTitle msgs, model := mdl }
    else c).createdAt = c.createdAt := by
  split <;> rfl

/-- With an active non-empty chat id, `updateCurrentChat` maps the per-chat
update function over the accumulated collection. -/
theorem updateCurrentChat_chats (msgs : List Message) (capt acc : AppState) (cid : String)
    (hcid : capt.currentChatId = some cid) (hne : cid ≠ "") :
    (updateCurrentChat msgs capt acc).chats =
      acc.chats.map (fun chat =>
        if chat.id == cid then
          { chat with messages := msgs, title := computeTitle msgs, model := capt.model }
        else chat) := by
  simp only [updateCurrentChat, hcid]
  rw [if_neg (by simp [hne])]

/-- `updateCurrentChat` only touches the `chats` field of the accumulated state. -/
theorem updateCurrentChat_cursor (msgs : List Message) (capt acc : AppState) :
    (updateCurrentChat msgs capt acc).currentChatId = acc.currentChatId ∧
    (updateCurrentChat msgs capt acc).messages = acc.messages ∧
    (updateCurrentChat msgs capt acc).input = acc.input ∧
    (updateCurrentChat msgs capt acc).isLoading = acc.isLoading ∧
    (updateCurrentChat msgs capt acc).model = acc.model ∧
    (updateCurrentChat msgs capt acc).error = acc.error := by
  unfold updateCurrentChat
  cases capt.currentChatId with
  | none => simp
  | some cid => by_cases h : (cid == "") = true <;> simp [h]

/-- When filtering on ids different from `chatId` leaves `r` at the head, then
searching the original list for the id of `r` finds `r` itself: every element
dropped before `r` has id `chatId`, which differs from the id of `r`. -/
theorem find?_of_filter_cons (l : List Chat) (chatId : String) (r : Chat)
    (rest : List Chat) (h : l.filter (fun c => c.id != chatId) = r :: rest) :
    l.find? (fun c => c.id == r.id) = some r := by
  induction l with
  | nil => simp at h
  | cons c t ih =>
    rw [List.filter_cons] at h
    by_cases hc : (c.id != chatId) = true
    · rw [if_pos hc] at h
      obtain ⟨rfl, -⟩ : c = r ∧ t.filter (fun c => c.id != chatId) = rest := by
        exact ⟨(List.cons.injEq _ _ _ _ ▸ h).1, (List.cons.injEq _ _ _ _ ▸ h).2⟩
      exact List.find?_cons_of_pos t (beq_self_eq_true c.id)
    · rw [if_neg hc] at h
      have hrt : r ∈ t.filter (fun c => c.id != chatId) := h ▸ List.mem_cons_self r rest
      have hrne : r.id ≠ chatId := by
        have := (List.mem_filter.mp hrt).2
        simpa [bne_iff_ne] using this
      have hceq : c.id = chatId := by simpa [bne_iff_ne] using hc
      have hfalse : (c.id == r.id) = false :=
        beq_eq_false_iff_ne.mpr (by rw [hceq]; exact fun h2 => hrne h2.symm)
      rw [List.find?_cons_of_neg t (by simp [hfalse]), ih h]

/-- Fields of the pre-fetch part of a non-empty submission: the user message
is appended to the cursor log, the error slot is cleared, the busy flag is
raised and the input is emptied. -/
theorem handleSubmitPre_fields (now : Nat) (s : AppState)
    (hin : ¬ jsTrim s.input = "") :
    (handleSubmitPre now s).messages =
      s.messages ++ [{ role := Role.user, content := s.input }] ∧
    (handleSubmitPre now s).error = none ∧
    (handleSubmitPre now s).isLoading = true ∧
    (handleSubmitPre now s).input = "" := by
  simp only [handleSubmitPre, if_neg (by simp [hin] : ¬ (jsTrim s.input == "") = true)]
  refine ⟨?_, trivial, trivial, trivial⟩
  show (updateCurrentChat _ s _).messages = _
  rw [(updateCurrentChat_cursor _ s _).2.1]

/-- With a chat active at capture time, the pre-fetch part of a submission
rewrites that chat record in place with the extended log, recomputed title
and current model. -/
theorem handleSubmitPre_chats_at (now : Nat) (s : AppState) (cid : String)
    (i : Nat) (c : Chat) (hin : ¬ jsTrim s.input = "")
    (hcid : s.currentChatId = some cid) (hne : cid ≠ "")
    (hc : s.chats[i]? = some c) (hceq : c.id = cid) :
    (handleSubmitPre now s).chats[i]? =
      some { c with
        messages := s.messages ++ [{ role := Role.user, content := s.input }],
        title := computeTitle (s.messages ++ [{ role := Role.user, content := s.input }]),
        model := s.model } := by
  have hfalsy : strFalsy s.currentChatId = false := by
    rw [hcid]
    simpa [strFalsy] using hne
  simp only [handleSubmitPre, if_neg (by simp [hin] : ¬ (jsTrim s.input == "") = true),
    hfalsy, Bool.false_eq_true, if_false]
  show (updateCurrentChat _ s _).chats[i]? = _
  rw [updateCurrentChat_chats _ s _ cid hcid hne]
  show ((s.chats.map _)[i]?) = _
  rw [List.getElem?_map, hc]
  simp only [Option.map]
  rw [if_pos (by simp [hceq])]

/-- Every single store operation preserves the no-dangling-cursor invariant. -/
theorem noDangling_applyOp (s : AppState) (op : Op) (h : noDangling s = true) :
    noDangling (applyOp s op) = true := by
  cases op with
  | create now =>
    simp [applyOp, createNewChat, noDangling]
  | append msgs =>
    show noDangling (updateCurrentChat msgs s s) = true
    cases hc : s.currentChatId with
    | none =>
      simpa [updateCurrentChat, hc] using h
    | some cid =>
      by_cases hcid : (cid == "") = true
      · simp only [updateCurrentChat, hc, if_pos hcid]
        exact h
      · simp only [updateCurrentChat, hc, if_neg hcid]
        rw [noDangling] at h ⊢
        simp only [hc] at h ⊢
        rw [List.any_map]
        have heq : ((fun (c : Chat) => c.id == cid) ∘ fun (chat : Chat) =>
            if chat.id == cid then
              { chat with messages := msgs, title := computeTitle msgs, model := s.model }
            else chat) = fun (c : Chat) => c.id == cid := by
          funext c
          simp only [Function.comp]
          rw [chatUpdate_id]
        rw [heq]
        exact h
  | select chatId =>
    show noDangling (selectChat chatId s s) = true
    cases hf : s.chats.find? (fun c => c.id == chatId) with
    | none =>
      simp only [selectChat, hf]
      exact h
    | some chat =>
      have hmem := List.mem_of_find?_eq_some hf
      have hp := List.find?_some hf
      simp only [selectChat, hf, noDangling]
      exact List.any_eq_true.mpr ⟨chat, hmem, hp⟩
  | del chatId =>
    show noDangling (deleteChat chatId s) = true
    by_cases hact : (s.currentChatId == some chatId) = true
    · cases hfil : s.chats.filter (fun c => c.id != chatId) with
      | nil =>
        simp only [deleteChat, if_pos hact, hfil]
        simp [noDangling]
      | cons r rest =>
        have hfind := find?_of_filter_cons s.chats chatId r rest hfil
        simp only [deleteChat, if_pos hact, hfil, selectChat, hfind, noDangling]
        simp [List.any_cons]
    · simp only [deleteChat, if_neg hact]
      rw [noDangling] at h ⊢
      cases hc : s.currentChatId with
      | none => simp
      | some cid =>
        simp only [hc] at h ⊢
        obtain ⟨c, hcmem, hcp⟩ := List.any_eq_true.mp h
        refine List.any_eq_true.mpr ⟨c, ?_, hcp⟩
        rw [List.mem_filter]
        refine ⟨hcmem, ?_⟩
        have hcidne : cid ≠ chatId := by
          intro heq
          apply hact
          rw [hc, heq]
          exact beq_self_eq_true (some chatId)
        have hcid2 : c.id = cid := beq_iff_eq.mp hcp
        rw [bne_iff_ne, hcid2]
        exact hcidne

/-- Claim C1: for every sequence of create, append, select and delete
operations started in any state with no dangling cursor, the resulting state
has no dangling cursor: whenever `currentChatId` is not none, a chat with
that id is present in the collection. -/
theorem noDangling_invariant (s : AppState) (ops : List Op)
    (h : noDangling s = true) : noDangling (runOps s ops) = true := by
  induction ops generalizing s with
  | nil => simpa [runOps] using h
  | cons op ops ih =>
    rw [runOps, List.foldl_cons]
    exact ih (applyOp s op) (noDangling_applyOp s op h)

/-- Claim C1 witness: a concrete run of all four operation kinds from the
initial state ends with no dangling cursor. -/
theorem noDangling_invariant_witness :
    noDangling (runOps initialState
      [Op.create 1, Op.append [helloMsg], Op.create 2, Op.select "1", Op.del "2"]) = true :=
  noDangling_invariant initialState
    [Op.create 1, Op.append [helloMsg], Op.create 2, Op.select "1", Op.del "2"] (by decide)

/-- Claim C2 failing-input evaluation: submitting "Hello" with no active chat
creates a chat and puts the user message into the cursor log, but the created
chat record in the collection still has an empty message log when the fetch
is about to be issued: `updateCurrentChat` read the stale captured
`currentChatId` (null) and returned without writing.  The user message is
therefore not reflected in the collection before the network call, contrary
to the claim. -/
theorem handleSubmit_fresh_chat_not_persisted :
    (handleSubmitPre 1 freshSubmitState).currentChatId = some "1" ∧
    (handleSubmitPre 1 freshSubmitState).messages = [helloMsg] ∧
    (handleSubmitPre 1 freshSubmitState).chats = [emptyChat1] := by
  decide

/-- Claim C3: the recomputed title is "New Chat" when the log holds no user
message; the first user message content itself, with no truncation marker,
when its length is at most 30; and its first 30 characters followed by the
marker "..." when longer than 30. -/
theorem computeTitle_correct (msgs : List Message) :
    (msgs.find? (fun m => m.role == Role.user) = none → computeTitle msgs = "New Chat") ∧
    (∀ m, msgs.find? (fun m2 => m2.role == Role.user) = some m →
      (m.content.length ≤ 30 → computeTitle msgs = m.content) ∧
      (30 < m.content.length → computeTitle msgs = m.content.take 30 ++ "...")) := by
  refine ⟨fun h => by simp [computeTitle, h], fun m hm => ⟨fun hle => ?_, fun hlt => ?_⟩⟩
  · have hdata : m.content.data.take 30 = m.content.data :=
      List.take_of_length_le hle
    simp only [computeTitle, hm]
    rw [if_neg (by omega), hdata]
    show String.mk m.content.data ++ "" = m.content
    simp
  · simp only [computeTitle, hm]
    rw [if_pos hlt, String.take_eq]

/-- Claim C3 witness: the three title branches at concrete logs. -/
theorem computeTitle_correct_witness :
    computeTitle [] = "New Chat" ∧
    computeTitle [helloMsg] = "Hello" ∧
    computeTitle [longMsg] = longContent.take 30 ++ "..." :=
  ⟨(computeTitle_correct []).1 (by decide),
   ((computeTitle_correct [helloMsg]).2 helloMsg (by decide)).1 (by decide),
   ((computeTitle_correct [longMsg]).2 longMsg (by decide)).2 (by decide)⟩

/-- Claim C4: `deleteChat` removes the chat with the given id from the
collection; when the deleted chat was active and chats remain, the new
head-most remaining chat becomes active with its own log and model; when the
deleted chat was active and none remain, the cursor id becomes none and the
log is cleared; when the deleted chat was not active, the cursor (id, log,
model) is unchanged. -/
theorem deleteChat_spec (chatId : String) (s : AppState) :
    ((deleteChat chatId s).chats = s.chats.filter (fun c => c.id != chatId)) ∧
    (∀ r : Chat, ∀ rest : List Chat, s.currentChatId = some chatId →
      s.chats.filter (fun c => c.id != chatId) = r :: rest →
      (deleteChat chatId s).currentChatId = some r.id ∧
      (deleteChat chatId s).messages = r.messages ∧
      (deleteChat chatId s).model = r.model) ∧
    (s.currentChatId = some chatId →
      s.chats.filter (fun c => c.id != chatId) = [] →
      (deleteChat chatId s).currentChatId = none ∧ (deleteChat chatId s).messages = []) ∧
    (s.currentChatId ≠ some chatId →
      (deleteChat chatId s).currentChatId = s.currentChatId ∧
      (deleteChat chatId s).messages = s.messages ∧
      (deleteChat chatId s).model = s.model) := by
  refine ⟨?_, fun r rest hact hfil => ?_, fun hact hfil => ?_, fun hact => ?_⟩
  · unfold deleteChat
    by_cases h : (s.currentChatId == some chatId) = true
    · rw [if_pos h]
      cases hfil : s.chats.filter (fun c => c.id != chatId) with
      | nil => simp [hfil]
      | cons r rest =>
        unfold selectChat
        cases hf : s.chats.find? (fun c => c.id == r.id) with
        | none => simp [hf]
        | some chat => simp [hf]
    · rw [if_neg h]
  · have hfind := find?_of_filter_cons s.chats chatId r rest hfil
    unfold deleteChat
    rw [if_pos (by simp [hact]), hfil]
    simp [selectChat, hfind]
  · unfold deleteChat
    rw [if_pos (by simp [hact]), hfil]
    exact ⟨rfl, rfl⟩
  · unfold deleteChat
    rw [if_neg (by simp [hact])]
    exact ⟨rfl, rfl, rfl⟩

/-- Claim C4 witness: deleting the active chat "1" of the two-chat state
activates the remaining chat "2" and loads its log and model. -/
theorem deleteChat_spec_witness :
    (deleteChat "1" twoChatState).currentChatId = some chatB.id ∧
    (deleteChat "1" twoChatState).messages = chatB.messages ∧
    (deleteChat "1" twoChatState).model = chatB.model :=
  (deleteChat_spec "1" twoChatState).2.1 chatB [] (by decide) (by decide)

/-- Claim C5 failing-input evaluation: with the chat created at millisecond 5
(id "5") already in the collection, `createNewChat` at the same clock reading
allocates the same id "5" again, so the collection holds two chats with equal
ids and the id list is not duplicate-free. -/
theorem createNewChat_id_collision :
    ((createNewChat 5 collisionState collisionState).chats.map Chat.id) = ["5", "5"] ∧
    ¬ ((createNewChat 5 collisionState collisionState).chats.map Chat.id).Nodup := by
  decide

/-- Claim C6 counterexample: selecting the present chat "1" succeeds as a state
change, yet the handler returns no value: the result component is none, not
the found chat, so no Chat is returned (and symmetrically no NotFound value
exists to signal on a miss). -/
theorem selectChat_returns_no_chat :
    twoChatState.chats.find? (fun c => c.id == "1") = some chatA ∧
    (selectChatFull "1" twoChatState).2 = none ∧
    ¬ (selectChatFull "1" twoChatState).2 = some chatA := by
  decide

/-- Claim C6 as amended: when a chat with the id is present it becomes active
and its log and model are loaded into the cursor, the collection unchanged;
when absent the whole state is unchanged; in both cases the handler returns
no value (undefined, modelled none), so nothing is returned or signalled. -/
theorem selectChat_cases (chatId : String) (s : AppState) :
    (∀ chat : Chat, s.chats.find? (fun c => c.id == chatId) = some chat →
      (selectChatFull chatId s).1.currentChatId = some chatId ∧
      (selectChatFull chatId s).1.messages = chat.messages ∧
      (selectChatFull chatId s).1.model = chat.model ∧
      (selectChatFull chatId s).1.chats = s.chats ∧
      (selectChatFull chatId s).2 = none) ∧
    (s.chats.find? (fun c => c.id == chatId) = none →
      (selectChatFull chatId s).1 = s ∧ (selectChatFull chatId s).2 = none) := by
  constructor
  · intro chat hf
    simp [selectChatFull, selectChat, hf]
  · intro hf
    simp [selectChatFull, selectChat, hf]

/-- Claim C6 witness: selecting the present chat "2" loads its log and model
and returns no value. -/
theorem selectChat_cases_witness :
    (selectChatFull "2" twoChatState).1.currentChatId = some "2" ∧
    (selectChatFull "2" twoChatState).1.messages = chatB.messages ∧
    (selectChatFull "2" twoChatState).1.model = chatB.model ∧
    (selectChatFull "2" twoChatState).1.chats = twoChatState.chats ∧
    (selectChatFull "2" twoChatState).2 = none :=
  (selectChat_cases "2" twoChatState).1 chatB (by decide)

/-- Claim C7: creating a chat with model "llama3.2:latest", submitting "Hello"
and receiving the reply "Hi there" yields the log [user "Hello",
assistant "Hi there"] and the title "Hello" in the stored chat record. -/
theorem submit_hello_scenario :
    handleSubmit 2 (FetchOutcome.success (some "Hi there"))
        { (createNewChat 1 initialState initialState) with input := "Hello" } =
      { chats := [helloChat], currentChatId := some "1",
        messages := [helloMsg, hiThereMsg], input := "", isLoading := false,
        model := "llama3.2:latest", error := none } := by
  decide

/-- Claim C8: on every failing fetch outcome of a non-empty submission, no
assistant message is appended (the cursor log is exactly the old log plus the
user message), the single error slot holds the error of this outcome, the
collection record of a chat active at capture keeps the already appended user
message, and the error slot is cleared at the start of any next submission. -/
theorem handleSubmit_failure (now : Nat) (o : FetchOutcome) (s : AppState)
    (hin : ¬ jsTrim s.input = "") (hf : inferenceFails o = true) :
    (handleSubmit now o s).messages =
      s.messages ++ [{ role := Role.user, content := s.input }] ∧
    (handleSubmit now o s).error = inferenceErrorMessage o ∧
    (inferenceErrorMessage o).isSome = true ∧
    (∀ cid : String, ∀ i : Nat, ∀ c : Chat, s.currentChatId = some cid → cid ≠ "" →
      s.chats[i]? = some c → c.id = cid →
      (handleSubmit now o s).chats[i]? =
        some { c with
          messages := s.messages ++ [{ role := Role.user, content := s.input }],
          title := computeTitle (s.messages ++ [{ role := Role.user, content := s.input }]),
          model := s.model }) ∧
    (∀ s2 : AppState, ¬ jsTrim s2.input = "" → ∀ n2 : Nat,
      (handleSubmitPre n2 s2).error = none) := by
  have hpre := handleSubmitPre_fields now s hin
  have hneg : ¬ (jsTrim s.input == "") = true := by simp [hin]
  have hchats : ∀ cid : String, ∀ i : Nat, ∀ c : Chat,
      s.currentChatId = some cid → cid ≠ "" → s.chats[i]? = some c → c.id = cid →
      (handleSubmitPre now s).chats[i]? =
        some { c with
          messages := s.messages ++ [{ role := Role.user, content := s.input }],
          title := computeTitle (s.messages ++ [{ role := Role.user, content := s.input }]),
          model := s.model } :=
    fun cid i c h1 h2 h3 h4 => handleSubmitPre_chats_at now s cid i c hin h1 h2 h3 h4
  have hclear : ∀ s2 : AppState, ¬ jsTrim s2.input = "" → ∀ n2 : Nat,
      (handleSubmitPre n2 s2).error = none :=
    fun s2 h2 n2 => (handleSubmitPre_fields n2 s2 h2).2.1
  cases o with
  | networkError m =>
    simp only [handleSubmit, if_neg hneg, inferenceErrorMessage]
    exact ⟨hpre.1, trivial, rfl, fun cid i c h1 h2 h3 h4 => hchats cid i c h1 h2 h3 h4, hclear⟩
  | httpError status body =>
    simp only [handleSubmit, if_neg hneg, inferenceErrorMessage]
    exact ⟨hpre.1, trivial, rfl, fun cid i c h1 h2 h3 h4 => hchats cid i c h1 h2 h3 h4, hclear⟩
  | success response =>
    cases response with
    | none =>
      simp only [handleSubmit, if_neg hneg, inferenceErrorMessage, strFalsy, if_pos rfl]
      exact ⟨hpre.1, by simp, rfl, fun cid i c h1 h2 h3 h4 => hchats cid i c h1 h2 h3 h4, hclear⟩
    | some r =>
      have hr : (r == "") = true := by simpa [inferenceFails] using hf
      simp only [handleSubmit, if_neg hneg, inferenceErrorMessage, strFalsy, hr, if_pos rfl,
        if_true]
      exact ⟨hpre.1, trivial, rfl, fun cid i c h1 h2 h3 h4 => hchats cid i c h1 h2 h3 h4, hclear⟩

/-- Claim C8 witness: a 500 response on submitting "Hi" retains the user
message and stores the API error string. -/
theorem handleSubmit_failure_witness :
    (handleSubmit 2 (FetchOutcome.httpError 500 "boom") failState).messages =
      failState.messages ++ [{ role := Role.user, content := failState.input }] ∧
    (handleSubmit 2 (FetchOutcome.httpError 500 "boom") failState).error =
      inferenceErrorMessage (FetchOutcome.httpError 500 "boom") :=
  ⟨(handleSubmit_failure 2 (FetchOutcome.httpError 500 "boom") failState
      (by decide) (by decide)).1,
   (handleSubmit_failure 2 (FetchOutcome.httpError 500 "boom") failState
      (by decide) (by decide)).2.1⟩

/-- Claim C9: an append with an active chat keeps the collection length and
the position-wise ids (so the active chat keeps its position and updates
never reorder), leaves every chat with a different id unchanged at its
position, rewrites the active chat in place, and never changes any id or
`createdAt`. -/
theorem updateCurrentChat_frame (msgs : List Message) (s : AppState) (cid : String)
    (hcid : s.currentChatId = some cid) (hne : cid ≠ "") :
    (updateCurrentChat msgs s s).chats.length = s.chats.length ∧
    (∀ i : Nat, ((updateCurrentChat msgs s s).chats[i]?).map Chat.id =
      (s.chats[i]?).map Chat.id) ∧
    (∀ i : Nat, ∀ c : Chat, s.chats[i]? = some c → c.id ≠ cid →
      (updateCurrentChat msgs s s).chats[i]? = some c) ∧
    (∀ i : Nat, ∀ c : Chat, s.chats[i]? = some c → c.id = cid →
      (updateCurrentChat msgs s s).chats[i]? =
        some { c with messages := msgs, title := computeTitle msgs, model := s.model }) ∧
    (∀ i : Nat, ∀ c c2 : Chat, s.chats[i]? = some c →
      (updateCurrentChat msgs s s).chats[i]? = some c2 →
      c2.id = c.id ∧ c2.createdAt = c.createdAt) := by
  rw [updateCurrentChat_chats msgs s s cid hcid hne]
  refine ⟨List.length_map _ _, fun i => ?_, fun i c hc hcne => ?_, fun i c hc hceq => ?_,
    fun i c c2 hc hc2 => ?_⟩
  · rw [List.getElem?_map]
    cases s.chats[i]? with
    | none => rfl
    | some c =>
      simp only [Option.map]
      rw [chatUpdate_id]
  · rw [List.getElem?_map, hc]
    simp only [Option.map]
    rw [if_neg (by simp [hcne])]
  · rw [List.getElem?_map, hc]
    simp only [Option.map]
    rw [if_pos (by simp [hceq])]
  · rw [List.getElem?_map, hc] at hc2
    simp only [Option.map] at hc2
    rw [Option.some_inj] at hc2
    subst hc2
    exact ⟨chatUpdate_id msgs s.model cid c, chatUpdate_createdAt msgs s.model cid c⟩

/-- Claim C9 witness: an append in the two-chat state keeps the collection
length. -/
theorem updateCurrentChat_frame_witness :
    (updateCurrentChat [helloMsg] twoChatState twoChatState).chats.length =
      twoChatState.chats.length :=
  (updateCurrentChat_frame [helloMsg] twoChatState "1" rfl (by decide)).1

/-- Claim C10: after `setModel`, an append overwrites the active chat record
with the newly selected cursor model, not the model stored in the record, so
the whole chat is rebound to the new model. -/
theorem updateCurrentChat_rebinds_model (msgs : List Message) (s : AppState)
    (cid m : String) (hcid : s.currentChatId = some cid) (hne : cid ≠ "") :
    ∀ i : Nat, ∀ c : Chat, s.chats[i]? = some c → c.id = cid →
      (updateCurrentChat msgs (setModel m s) (setModel m s)).chats[i]? =
        some { c with messages := msgs, title := computeTitle msgs, model := m } := by
  intro i c hc hceq
  rw [updateCurrentChat_chats msgs (setModel m s) (setModel m s) cid hcid hne]
  rw [List.getElem?_map]
  show ((s.chats[i]?).map _) = _
  rw [hc]
  simp only [Option.map]
  rw [if_pos (by simp [hceq])]
  rfl

/-- Claim C10 witness: chat "1" stored with model "llama3.2:latest" is rebound
to "mistral" by an append after `setModel "mistral"`. -/
theorem updateCurrentChat_rebinds_model_witness :
    (updateCurrentChat [helloMsg] (setModel "mistral" twoChatState)
        (setModel "mistral" twoChatState)).chats[0]? = some chatARebound :=
  updateCurrentChat_rebinds_model [helloMsg] twoChatState "1" "mistral" rfl (by decide)
    0 chatA (by decide) (by decide)

end OllamaApp
